import Mathlib

set_option maxHeartbeats 1000000
set_option maxRecDepth 100000

/-! Verification development for the two Streamlit entity-extraction pages of
the TextSummarizationBOT repository: `app.py` (variant 1, medical entities)
and `app2.py` (variant 2, named entities with geography).  Strings are
modelled as Lean `String` / `List Char`; one script run of each page is a
pure function from its inputs (the credential environment variable, the
widget states, the outcome of the constructor and of the single model call)
to the list of UI effects the run emits plus the request it issues. -/

/-- The ASCII whitespace characters removed by Python `str.strip()`. -/
def isPySpace (c : Char) : Bool :=
  c == ' ' || c == '\t' || c == '\n' || c == '\r' || c == '\x0b' || c == '\x0c'

/-- Python `str.strip()` on the underlying character list: drop leading and
trailing whitespace. -/
def pyStrip (s : List Char) : List Char :=
  ((s.dropWhile isPySpace).reverse.dropWhile isPySpace).reverse

/-- Predicate `leads pat s`: `pat` matches at the head of `s`. -/
def leads : List Char → List Char → Bool
  | [], _ => true
  | _ :: _, [] => false
  | a :: as, b :: bs => a == b && leads as bs

/-- Number of positions of `s` at which `pat` matches. -/
def countOccs (pat : List Char) : List Char → Nat
  | [] => if leads pat [] then 1 else 0
  | c :: rest => (if leads pat (c :: rest) then 1 else 0) + countOccs pat rest

/-- No match of `pat` starts anywhere in `s`. -/
def noOcc (pat : List Char) : List Char → Bool
  | [] => true
  | c :: rest => !leads pat (c :: rest) && noOcc pat rest

/-- No match of `pat` starts at any of the first `n` positions of `s`. -/
def noOccIn (pat : List Char) : List Char → Nat → Bool
  | _, 0 => true
  | [], _ + 1 => true
  | c :: rest, n + 1 => !leads pat (c :: rest) && noOccIn pat rest n

/-- Scanner of `replaceAll`: while `skip` is positive the scanner is inside
an occurrence already replaced and drops characters; at `skip = 0` it looks
for the next occurrence of `pat`. -/
def replaceGo (pat repl : List Char) (skip : Nat) : List Char → List Char
  | [] => []
  | c :: rest =>
    match skip with
    | n + 1 => replaceGo pat repl n rest
    | 0 =>
      if 0 < pat.length ∧ leads pat (c :: rest) then
        repl ++ replaceGo pat repl (pat.length - 1) rest
      else
        c :: replaceGo pat repl 0 rest

/-- Replacement semantics of Python `str.format` on a template: every
occurrence of `pat` is replaced by `repl`, and the substituted text is not
rescanned. -/
def replaceAll (pat repl s : List Char) : List Char :=
  replaceGo pat repl 0 s

/-- The substitution point of both templates (`\x7btext\x7d` in the source). -/
def placeholderText : String := "\x7btext\x7d"

/-- The prompt template of variant 1 (`app.py`, lines 37-45), verbatim. -/
def template : String := "You are a medical expert and good at English. Extract all the medical entities from the given tweet and assign the appropriate medical entity labels.\n\nInput text: \x7btext\x7d\n\nPlease format your response as a markdown table with the following columns:\n| Entity | Label | Context |\n\nOnly include medical terms, conditions, symptoms, medications, or healthcare-related entities.\n"

/-- The part of `template` before the substitution point. -/
def templatePre : String := "You are a medical expert and good at English. Extract all the medical entities from the given tweet and assign the appropriate medical entity labels.\n\nInput text: "

/-- The part of `template` after the substitution point. -/
def templateSuf : String := "\n\nPlease format your response as a markdown table with the following columns:\n| Entity | Label | Context |\n\nOnly include medical terms, conditions, symptoms, medications, or healthcare-related entities.\n"

/-- The prompt template of variant 2 (`app2.py`, lines 21-42), verbatim
(including the trailing blank after the first sentence). -/
def PROMPT_TEMPLATE : String := "You are an expert in entity extraction and natural language processing. \nExtract named entities from the given text, focusing on people, organizations, locations, and associated geographic information.\n\nInput text: \x7btext\x7d\n\nProvide a structured analysis in the following markdown table format:\n| Name | Entity_Type | City | Country | Country_Code |\n\nGuidelines:\n- Name: The extracted entity name\n- Entity_Type: One of [PERSON, ORGANIZATION, LOCATION]\n- City: Associated city (if applicable)\n- Country: Full country name (if applicable)\n- Country_Code: ISO 2-letter country code (if applicable)\n\nExample:\nFor text: \"Tim Cook from Apple in Cupertino, USA announced...\"\n| Tim Cook | PERSON | Cupertino | United States | US |\n| Apple | ORGANIZATION | Cupertino | United States | US |\n\nOnly include relevant named entities. Leave fields blank with '-' if not applicable.\nEnsure all country codes are valid ISO 2-letter codes."

/-- The part of `PROMPT_TEMPLATE` before the substitution point. -/
def promptTemplatePre : String := "You are an expert in entity extraction and natural language processing. \nExtract named entities from the given text, focusing on people, organizations, locations, and associated geographic information.\n\nInput text: "

/-- The part of `PROMPT_TEMPLATE` after the substitution point. -/
def promptTemplateSuf : String := "\n\nProvide a structured analysis in the following markdown table format:\n| Name | Entity_Type | City | Country | Country_Code |\n\nGuidelines:\n- Name: The extracted entity name\n- Entity_Type: One of [PERSON, ORGANIZATION, LOCATION]\n- City: Associated city (if applicable)\n- Country: Full country name (if applicable)\n- Country_Code: ISO 2-letter country code (if applicable)\n\nExample:\nFor text: \"Tim Cook from Apple in Cupertino, USA announced...\"\n| Tim Cook | PERSON | Cupertino | United States | US |\n| Apple | ORGANIZATION | Cupertino | United States | US |\n\nOnly include relevant named entities. Leave fields blank with '-' if not applicable.\nEnsure all country codes are valid ISO 2-letter codes."

/-- Semantics of `PromptTemplate(...).format(text=input)`: substitute the input into the
single-variable f-string template. -/
def formatPrompt (tmpl text : String) : String :=
  ⟨replaceAll placeholderText.data text.data tmpl.data⟩

/-- The response object returned by `llm.invoke`: either it has a `content`
attribute (the normal message object), or it does not and only its `str(...)`
conversion is available. -/
inductive PyResponse where
  | withContent (content : String) (strConv : String)
  | withoutContent (strConv : String)
deriving DecidableEq, Repr

/-- The result-extraction step of both variants: the `content` attribute when
the response has one, otherwise the string conversion of the response. -/
def extractResult : PyResponse → String
  | .withContent c _ => c
  | .withoutContent s => s

/-- The keyword configuration passed to the `ChatGroq` constructor. -/
structure GroqConfig where
  apiKey : Option String
  model : String
  temperature : Nat
  maxTokens : Nat
  timeout : Nat
  maxRetries : Nat
deriving DecidableEq, Repr

/-- One request to the chat-completion endpoint: the client configuration and
the contents of the messages sent (a single human message in both variants). -/
structure GroqRequest where
  config : GroqConfig
  messages : List String
deriving DecidableEq, Repr

/-- UI effects emitted by one Streamlit script run, in order. -/
inductive Ev where
  | pageConfig
  | getEnv (name : String)
  | errMsg (s : String)
  | stopPage
  | warnMsg (s : String)
  | infoMsg (s : String)
  | timingMsg
  | titleMsg (s : String)
  | writeMsg (s : String)
  | subheaderMsg (s : String)
  | markdownMsg (s : String)
  | spinnerMsg (s : String)
  | textArea (label : String)
  | buttonShown (label : String)
  | downloadButton (label data fileName mime : String)
  | rerunPage
deriving DecidableEq, Repr

/-- Python truthiness of the value returned by `os.getenv`: `None` and the
empty string are falsy. -/
def truthy : Option String → Bool
  | none => false
  | some s => !s.isEmpty

/-- The keyword arguments of the `ChatGroq` constructor call in `app.py`
(lines 24-31). -/
def app1Config (key : Option String) : GroqConfig :=
  { apiKey := key, model := "mixtral-8x7b-32768", temperature := 0,
    maxTokens := 500, timeout := 10, maxRetries := 2 }

/-- The keyword arguments of the `ChatGroq` constructor call in
`EntityExtractor.initialize_llm` (`app2.py`, lines 60-67). -/
def app2Config (key : Option String) : GroqConfig :=
  { apiKey := key, model := "mixtral-8x7b-32768", temperature := 0,
    maxTokens := 1000, timeout := 15, maxRetries := 3 }

/-- Result of one script run of variant 1 (`app.py`). -/
structure App1Run where
  events : List Ev
  request : Option GroqRequest
  halted : Bool
deriving DecidableEq, Repr

/-- One execution of `app.py` top to bottom.  Parameters: the value of the
GROQ_API_KEY environment variable, the outcome of the `ChatGroq` constructor
(`some e` when it raises with message `e`), whether the Analyze button
reports a click, the text-area content, and the outcome of the single
`llm.invoke` call.  `st.stop()` aborts the run with `halted := true`. -/
def app1Run (key : Option String) (ctorErr : Option String)
    (analyzeClicked : Bool) (inputText : String)
    (invokeRes : Except String PyResponse) : App1Run :=
  let ev0 := [Ev.getEnv "GROQ_API_KEY", Ev.pageConfig]
  if !truthy key then
    { events := ev0 ++
        [Ev.errMsg "GROQ_API_KEY not found. Please check your environment variables.",
         Ev.stopPage],
      request := none, halted := true }
  else
    match ctorErr with
    | some e =>
      { events := ev0 ++ [Ev.errMsg ("Error initializing ChatGroq: " ++ e), Ev.stopPage],
        request := none, halted := true }
    | none =>
      let cfg := app1Config key
      let uiEv := [Ev.titleMsg "Medical Entity Extractor",
        Ev.writeMsg "This tool extracts medical entities from text using the Groq LLM API.",
        Ev.textArea "Enter the text to analyze:",
        Ev.buttonShown "Analyze"]
      if analyzeClicked then
        if !(pyStrip inputText.data).isEmpty then
          let req : GroqRequest :=
            { config := cfg, messages := [formatPrompt template inputText] }
          match invokeRes with
          | .ok resp =>
            let result := extractResult resp
            { events := ev0 ++ uiEv ++ [Ev.spinnerMsg "Analyzing text...",
                Ev.subheaderMsg "Extracted Medical Entities", Ev.markdownMsg result,
                Ev.downloadButton "Download Results" result "medical_entities.txt" "text/plain"],
              request := some req, halted := false }
          | .error e =>
            { events := ev0 ++ uiEv ++ [Ev.spinnerMsg "Analyzing text...",
                Ev.errMsg ("Error processing text: " ++ e),
                Ev.infoMsg "Please try again or check your API configuration."],
              request := some req, halted := false }
        else
          { events := ev0 ++ uiEv ++ [Ev.warnMsg "Please enter some text to analyze."],
            request := none, halted := false }
      else { events := ev0 ++ uiEv, request := none, halted := false }

/-- Result of `EntityExtractor.process_text`. -/
structure ProcessOut where
  events : List Ev
  request : Option GroqRequest
deriving DecidableEq, Repr

/-- Model of `EntityExtractor.process_text`: check the credential, build the client,
format the prompt, make the one call, render the result.  `initErr` is the
outcome of the `ChatGroq` constructor inside `initialize_llm` (`some e` when
it raises with message `e`, in which case `initialize_llm` returns `None`). -/
def processText (apiKey : Option String) (initErr : Option String)
    (inputText : String) (invokeRes : Except String PyResponse) : ProcessOut :=
  if !truthy apiKey then
    { events := [Ev.errMsg "⚠️ GROQ_API_KEY not found. Please check your environment variables."],
      request := none }
  else
    match initErr with
    | some e => { events := [Ev.errMsg ("Failed to initialize LLM: " ++ e)], request := none }
    | none =>
      let cfg := app2Config apiKey
      let req : GroqRequest :=
        { config := cfg, messages := [formatPrompt PROMPT_TEMPLATE inputText] }
      match invokeRes with
      | .ok resp =>
        let result := extractResult resp
        { events := [Ev.spinnerMsg "🔄 Analyzing text...",
            Ev.subheaderMsg "📊 Extracted Entities", Ev.markdownMsg result, Ev.timingMsg,
            Ev.downloadButton "📥 Download Results" result "extracted_entities.md" "text/markdown"],
          request := some req }
      | .error e =>
        { events := [Ev.spinnerMsg "🔄 Analyzing text...",
            Ev.errMsg ("❌ Error during processing: " ++ e),
            Ev.infoMsg "Please try again or check your input text."],
          request := some req }

/-- Result of one script run of variant 2 (`app2.py`, `main`). -/
structure App2Run where
  events : List Ev
  request : Option GroqRequest
  sessionInput : Option String
  didRerun : Bool
deriving DecidableEq, Repr

/-- One execution of `app2.py` top to bottom: page config, extractor
construction (credential read and UI set up), input area and the two
buttons; then the Clear branch (which sets the session text to the empty
string and reruns the script, ending the run), else the Analyze branch.
`sessionInput` records an assignment to the text-area session state. -/
def app2Main (key : Option String) (initErr : Option String)
    (inputText : String) (analyzeClicked clearClicked : Bool)
    (invokeRes : Except String PyResponse) : App2Run :=
  let ev0 := [Ev.pageConfig, Ev.getEnv "GROQ_API_KEY",
    Ev.titleMsg "🔍 Advanced Entity Extractor",
    Ev.markdownMsg "\n        This tool extracts named entities from text and identifies associated geographic information.\n        Enter your text below to analyze people, organizations, and locations.\n        ",
    Ev.textArea "Enter text to analyze:",
    Ev.buttonShown "🔍 Analyze", Ev.buttonShown "🗑️ Clear"]
  if clearClicked then
    { events := ev0 ++ [Ev.rerunPage], request := none,
      sessionInput := some "", didRerun := true }
  else if analyzeClicked && !(pyStrip inputText.data).isEmpty then
    let p := processText key initErr inputText invokeRes
    { events := ev0 ++ p.events, request := p.request,
      sessionInput := none, didRerun := false }
  else if analyzeClicked then
    { events := ev0 ++ [Ev.warnMsg "⚠️ Please enter some text to analyze."],
      request := none, sessionInput := none, didRerun := false }
  else
    { events := ev0, request := none, sessionInput := none, didRerun := false }

lemma leads_append_self (p b : List Char) : leads p (p ++ b) = true := by
  induction p with
  | nil => rfl
  | cons a as ih => simp [leads, ih]

lemma replaceGo_skip (pat repl : List Char) (a b : List Char) :
    replaceGo pat repl a.length (a ++ b) = replaceGo pat repl 0 b := by
  induction a with
  | nil => rfl
  | cons c cs ih => exact ih

lemma replaceGo_zero_cons (pat repl : List Char) (c : Char) (rest : List Char) :
    replaceGo pat repl 0 (c :: rest) =
      if 0 < pat.length ∧ leads pat (c :: rest) then
        repl ++ replaceGo pat repl (pat.length - 1) rest
      else c :: replaceGo pat repl 0 rest := rfl

lemma countOccs_cons (pat : List Char) (c : Char) (rest : List Char) :
    countOccs pat (c :: rest) =
      (if leads pat (c :: rest) then 1 else 0) + countOccs pat rest := rfl

lemma noOcc_cons (pat : List Char) (c : Char) (rest : List Char) :
    noOcc pat (c :: rest) = (!leads pat (c :: rest) && noOcc pat rest) := rfl

lemma noOccIn_cons (pat : List Char) (c : Char) (rest : List Char) (n : Nat) :
    noOccIn pat (c :: rest) (n + 1) =
      (!leads pat (c :: rest) && noOccIn pat rest n) := rfl

lemma replaceGo_noOcc (pat repl s : List Char) (h : noOcc pat s = true) :
    replaceGo pat repl 0 s = s := by
  induction s with
  | nil => rfl
  | cons c rest ih =>
    rw [noOcc_cons, Bool.and_eq_true, Bool.not_eq_true'] at h
    rw [replaceGo_zero_cons, if_neg (by simp [h.1]), ih h.2]

lemma replaceGo_split (pat repl pre suf : List Char) (hp : 0 < pat.length)
    (hpre : noOccIn pat (pre ++ (pat ++ suf)) pre.length = true) :
    replaceGo pat repl 0 (pre ++ (pat ++ suf)) =
      pre ++ (repl ++ replaceGo pat repl 0 suf) := by
  induction pre with
  | nil =>
    simp only [List.nil_append]
    cases pat with
    | nil => simp at hp
    | cons pc pcs =>
      rw [List.cons_append, replaceGo_zero_cons]
      have hl : leads (pc :: pcs) (pc :: (pcs ++ suf)) = true := by
        have h0 := leads_append_self (pc :: pcs) suf
        rwa [List.cons_append] at h0
      rw [if_pos ⟨hp, hl⟩]
      have hskip : (pc :: pcs).length - 1 = pcs.length := by simp
      rw [hskip, replaceGo_skip]
  | cons c cs ih =>
    rw [List.cons_append, List.length_cons, noOccIn_cons, Bool.and_eq_true,
      Bool.not_eq_true'] at hpre
    rw [List.cons_append, List.cons_append, replaceGo_zero_cons,
      if_neg (by simp [hpre.1]), ih hpre.2]

lemma one_le_countOccs_nil (b : List Char) : 1 ≤ countOccs [] b := by
  induction b with
  | nil => simp [countOccs, leads]
  | cons c rest ih => simp [countOccs_cons, leads]

lemma countOccs_middle (pat a b : List Char) :
    1 ≤ countOccs pat (a ++ (pat ++ b)) := by
  induction a with
  | nil =>
    simp only [List.nil_append]
    cases pat with
    | nil => exact one_le_countOccs_nil b
    | cons pc pcs =>
      rw [List.cons_append, countOccs_cons]
      have hl : leads (pc :: pcs) (pc :: (pcs ++ b)) = true := by
        have h0 := leads_append_self (pc :: pcs) b
        rwa [List.cons_append] at h0
      rw [hl]
      simp
  | cons c cs ih =>
    rw [List.cons_append, countOccs_cons]
    omega

lemma pyStrip_of_all_space (s : List Char) (h : s.all isPySpace = true) :
    pyStrip s = [] := by
  unfold pyStrip
  have h1 : s.dropWhile isPySpace = [] := by
    rw [List.dropWhile_eq_nil_iff]
    intro x hx
    exact List.all_eq_true.mp h x hx
  simp [h1]

/-- The formatted prompt of variant 1 is the template text around the input
text, at the character-list level. -/
theorem format1_data (t : String) :
    (formatPrompt template t).data =
      templatePre.data ++ t.data ++ templateSuf.data := by
  have hsplit : template.data =
      templatePre.data ++ (placeholderText.data ++ templateSuf.data) := by decide
  show replaceGo placeholderText.data t.data 0 template.data = _
  rw [hsplit, replaceGo_split _ _ _ _ (by decide) (by decide),
    replaceGo_noOcc _ _ _ (by decide), List.append_assoc]

/-- The formatted prompt of variant 2 is the template text around the input
text, at the character-list level. -/
theorem format2_data (t : String) :
    (formatPrompt PROMPT_TEMPLATE t).data =
      promptTemplatePre.data ++ t.data ++ promptTemplateSuf.data := by
  have hsplit : PROMPT_TEMPLATE.data =
      promptTemplatePre.data ++ (placeholderText.data ++ promptTemplateSuf.data) := by decide
  show replaceGo placeholderText.data t.data 0 PROMPT_TEMPLATE.data = _
  rw [hsplit, replaceGo_split _ _ _ _ (by decide) (by decide),
    replaceGo_noOcc _ _ _ (by decide), List.append_assoc]

/-- String-level version of `format1_data`. -/
theorem format1_eq (t : String) :
    formatPrompt template t = templatePre ++ t ++ templateSuf := by
  apply String.ext
  rw [format1_data]
  simp [String.data_append]

/-- String-level version of `format2_data`. -/
theorem format2_eq (t : String) :
    formatPrompt PROMPT_TEMPLATE t = promptTemplatePre ++ t ++ promptTemplateSuf := by
  apply String.ext
  rw [format2_data]
  simp [String.data_append]

lemma app1Run_noKey (key ctorErr : Option String) (a : Bool) (t : String)
    (inv : Except String PyResponse) (hk : truthy key = false) :
    app1Run key ctorErr a t inv =
      { events := [Ev.getEnv "GROQ_API_KEY", Ev.pageConfig,
          Ev.errMsg "GROQ_API_KEY not found. Please check your environment variables.",
          Ev.stopPage],
        request := none, halted := true } := by
  simp [app1Run, hk]

lemma app1Run_ctorErr (key : Option String) (e : String) (a : Bool) (t : String)
    (inv : Except String PyResponse) (hk : truthy key = true) :
    app1Run key (some e) a t inv =
      { events := [Ev.getEnv "GROQ_API_KEY", Ev.pageConfig,
          Ev.errMsg ("Error initializing ChatGroq: " ++ e), Ev.stopPage],
        request := none, halted := true } := by
  simp [app1Run, hk]

lemma app1Run_noClick (key : Option String) (t : String)
    (inv : Except String PyResponse) (hk : truthy key = true) :
    app1Run key none false t inv =
      { events := [Ev.getEnv "GROQ_API_KEY", Ev.pageConfig,
          Ev.titleMsg "Medical Entity Extractor",
          Ev.writeMsg "This tool extracts medical entities from text using the Groq LLM API.",
          Ev.textArea "Enter the text to analyze:", Ev.buttonShown "Analyze"],
        request := none, halted := false } := by
  simp [app1Run, hk]

lemma app1Run_blank (key : Option String) (t : String)
    (inv : Except String PyResponse) (hk : truthy key = true)
    (ht : (pyStrip t.data).isEmpty = true) :
    app1Run key none true t inv =
      { events := [Ev.getEnv "GROQ_API_KEY", Ev.pageConfig,
          Ev.titleMsg "Medical Entity Extractor",
          Ev.writeMsg "This tool extracts medical entities from text using the Groq LLM API.",
          Ev.textArea "Enter the text to analyze:", Ev.buttonShown "Analyze",
          Ev.warnMsg "Please enter some text to analyze."],
        request := none, halted := false } := by
  simp [app1Run, hk, ht]

lemma app1Run_success (key : Option String) (t : String) (r : PyResponse)
    (hk : truthy key = true) (ht : (pyStrip t.data).isEmpty = false) :
    app1Run key none true t (Except.ok r) =
      { events := [Ev.getEnv "GROQ_API_KEY", Ev.pageConfig,
          Ev.titleMsg "Medical Entity Extractor",
          Ev.writeMsg "This tool extracts medical entities from text using the Groq LLM API.",
          Ev.textArea "Enter the text to analyze:", Ev.buttonShown "Analyze",
          Ev.spinnerMsg "Analyzing text...", Ev.subheaderMsg "Extracted Medical Entities",
          Ev.markdownMsg (extractResult r),
          Ev.downloadButton "Download Results" (extractResult r) "medical_entities.txt" "text/plain"],
        request := some (GroqRequest.mk (app1Config key) [formatPrompt template t]),
        halted := false } := by
  simp [app1Run, hk, ht]

lemma app1Run_invokeErr (key : Option String) (t : String) (e : String)
    (hk : truthy key = true) (ht : (pyStrip t.data).isEmpty = false) :
    app1Run key none true t (Except.error e) =
      { events := [Ev.getEnv "GROQ_API_KEY", Ev.pageConfig,
          Ev.titleMsg "Medical Entity Extractor",
          Ev.writeMsg "This tool extracts medical entities from text using the Groq LLM API.",
          Ev.textArea "Enter the text to analyze:", Ev.buttonShown "Analyze",
          Ev.spinnerMsg "Analyzing text...",
          Ev.errMsg ("Error processing text: " ++ e),
          Ev.infoMsg "Please try again or check your API configuration."],
        request := some (GroqRequest.mk (app1Config key) [formatPrompt template t]),
        halted := false } := by
  simp [app1Run, hk, ht]

lemma processText_noKey (key initErr : Option String) (t : String)
    (inv : Except String PyResponse) (hk : truthy key = false) :
    processText key initErr t inv =
      { events := [Ev.errMsg "⚠️ GROQ_API_KEY not found. Please check your environment variables."],
        request := none } := by
  simp [processText, hk]

lemma processText_initErr (key : Option String) (e : String) (t : String)
    (inv : Except String PyResponse) (hk : truthy key = true) :
    processText key (some e) t inv =
      { events := [Ev.errMsg ("Failed to initialize LLM: " ++ e)],
        request := none } := by
  simp [processText, hk]

lemma processText_success (key : Option String) (t : String) (r : PyResponse)
    (hk : truthy key = true) :
    processText key none t (Except.ok r) =
      { events := [Ev.spinnerMsg "🔄 Analyzing text...",
          Ev.subheaderMsg "📊 Extracted Entities", Ev.markdownMsg (extractResult r),
          Ev.timingMsg,
          Ev.downloadButton "📥 Download Results" (extractResult r) "extracted_entities.md" "text/markdown"],
        request := some (GroqRequest.mk (app2Config key) [formatPrompt PROMPT_TEMPLATE t]) } := by
  simp [processText, hk]

lemma processText_invokeErr (key : Option String) (t : String) (e : String)
    (hk : truthy key = true) :
    processText key none t (Except.error e) =
      { events := [Ev.spinnerMsg "🔄 Analyzing text...",
          Ev.errMsg ("❌ Error during processing: " ++ e),
          Ev.infoMsg "Please try again or check your input text."],
        request := some (GroqRequest.mk (app2Config key) [formatPrompt PROMPT_TEMPLATE t]) } := by
  simp [processText, hk]

/-- The fixed head of every variant-2 run: page config, credential read, UI
construction, input area and buttons. -/
def app2Head : List Ev :=
  [Ev.pageConfig, Ev.getEnv "GROQ_API_KEY",
   Ev.titleMsg "🔍 Advanced Entity Extractor",
   Ev.markdownMsg "\n        This tool extracts named entities from text and identifies associated geographic information.\n        Enter your text below to analyze people, organizations, and locations.\n        ",
   Ev.textArea "Enter text to analyze:",
   Ev.buttonShown "🔍 Analyze", Ev.buttonShown "🗑️ Clear"]

lemma app2Main_clear (key initErr : Option String) (t : String) (a : Bool)
    (inv : Except String PyResponse) :
    app2Main key initErr t a true inv =
      { events := app2Head ++ [Ev.rerunPage], request := none,
        sessionInput := some "", didRerun := true } := by
  simp [app2Main, app2Head]

lemma app2Main_idle (key initErr : Option String) (t : String)
    (inv : Except String PyResponse) :
    app2Main key initErr t false false inv =
      { events := app2Head, request := none,
        sessionInput := none, didRerun := false } := by
  simp [app2Main, app2Head]

lemma app2Main_blank (key initErr : Option String) (t : String)
    (inv : Except String PyResponse) (ht : (pyStrip t.data).isEmpty = true) :
    app2Main key initErr t true false inv =
      { events := app2Head ++ [Ev.warnMsg "⚠️ Please enter some text to analyze."],
        request := none, sessionInput := none, didRerun := false } := by
  simp [app2Main, app2Head, ht]

lemma app2Main_analyze (key initErr : Option String) (t : String)
    (inv : Except String PyResponse) (ht : (pyStrip t.data).isEmpty = false) :
    app2Main key initErr t true false inv =
      { events := app2Head ++ (processText key initErr t inv).events,
        request := (processText key initErr t inv).request,
        sessionInput := none, didRerun := false } := by
  simp [app2Main, app2Head, ht]


lemma app1Run_request_eq (key ctorErr : Option String) (a : Bool) (t : String)
    (inv : Except String PyResponse) (req : GroqRequest)
    (h : (app1Run key ctorErr a t inv).request = some req) :
    req = GroqRequest.mk (app1Config key) [formatPrompt template t] := by
  cases hk : truthy key with
  | false => rw [app1Run_noKey _ _ _ _ _ hk] at h; simp at h
  | true =>
    cases ctorErr with
    | some e => rw [app1Run_ctorErr _ _ _ _ _ hk] at h; simp at h
    | none =>
      cases a with
      | false => rw [app1Run_noClick _ _ _ hk] at h; simp at h
      | true =>
        cases ht : (pyStrip t.data).isEmpty with
        | true => rw [app1Run_blank _ _ _ hk ht] at h; simp at h
        | false =>
          cases inv with
          | ok r =>
            rw [app1Run_success _ _ _ hk ht] at h
            simpa using h.symm
          | error e =>
            rw [app1Run_invokeErr _ _ _ hk ht] at h
            simpa using h.symm

lemma processText_request_eq (key initErr : Option String) (t : String)
    (inv : Except String PyResponse) (req : GroqRequest)
    (h : (processText key initErr t inv).request = some req) :
    req = GroqRequest.mk (app2Config key) [formatPrompt PROMPT_TEMPLATE t] := by
  cases hk : truthy key with
  | false => rw [processText_noKey _ _ _ _ hk] at h; simp at h
  | true =>
    cases initErr with
    | some e => rw [processText_initErr _ _ _ _ hk] at h; simp at h
    | none =>
      cases inv with
      | ok r =>
        rw [processText_success _ _ _ hk] at h
        simpa using h.symm
      | error e =>
        rw [processText_invokeErr _ _ _ hk] at h
        simpa using h.symm

lemma app2Main_request_eq (key ctorErr : Option String) (t : String) (a c : Bool)
    (inv : Except String PyResponse) (req : GroqRequest)
    (h : (app2Main key ctorErr t a c inv).request = some req) :
    req = GroqRequest.mk (app2Config key) [formatPrompt PROMPT_TEMPLATE t] := by
  cases c with
  | true => rw [app2Main_clear] at h; simp at h
  | false =>
    cases a with
    | false => rw [app2Main_idle] at h; simp at h
    | true =>
      cases ht : (pyStrip t.data).isEmpty with
      | true => rw [app2Main_blank _ _ _ _ ht] at h; simp at h
      | false =>
        rw [app2Main_analyze _ _ _ _ ht] at h
        exact processText_request_eq _ _ _ _ _ h

/-- C1 counterexample: with the credential unset, variant 2 still renders the
text-input control (so input is accepted) and the run never halts — the page
does not halt before accepting input, contrary to the claim. -/
theorem c1_counterexample :
    Ev.textArea "Enter text to analyze:" ∈
      (app2Main none none "hi" true false (Except.error "net")).events ∧
    Ev.stopPage ∉ (app2Main none none "hi" true false (Except.error "net")).events := by
  decide

/-- C1 (amended): with the credential unset, variant 1 halts before accepting
any input (error message, stop, no input control, no request); variant 2
still renders its input control, but it never issues a request, and an
analyze attempt with non-blank text surfaces the fatal missing-credential
message. -/
theorem c1_amended :
    (∀ (ctorErr : Option String) (a : Bool) (t : String)
        (inv : Except String PyResponse),
      (app1Run none ctorErr a t inv).events =
        [Ev.getEnv "GROQ_API_KEY", Ev.pageConfig,
         Ev.errMsg "GROQ_API_KEY not found. Please check your environment variables.",
         Ev.stopPage] ∧
      (app1Run none ctorErr a t inv).request = none ∧
      (app1Run none ctorErr a t inv).halted = true ∧
      Ev.textArea "Enter the text to analyze:" ∉ (app1Run none ctorErr a t inv).events) ∧
    (∀ (initErr : Option String) (t : String) (a c : Bool)
        (inv : Except String PyResponse),
      (app2Main none initErr t a c inv).request = none ∧
      (a = true → c = false → (pyStrip t.data).isEmpty = false →
        Ev.errMsg "⚠️ GROQ_API_KEY not found. Please check your environment variables."
          ∈ (app2Main none initErr t a c inv).events)) := by
  constructor
  · intro ctorErr a t inv
    rw [app1Run_noKey none ctorErr a t inv rfl]
    exact ⟨rfl, rfl, rfl, by decide⟩
  · intro initErr t a c inv
    constructor
    · cases c with
      | true => rw [app2Main_clear]
      | false =>
        cases a with
        | false => rw [app2Main_idle]
        | true =>
          cases ht : (pyStrip t.data).isEmpty with
          | true => rw [app2Main_blank _ _ _ _ ht]
          | false =>
            rw [app2Main_analyze _ _ _ _ ht, processText_noKey none initErr t inv rfl]
    · intro ha hc ht
      subst ha; subst hc
      rw [app2Main_analyze _ _ _ _ ht, processText_noKey none initErr t inv rfl]
      simp [app2Head]

/-- C1 witness for the amended statement, at concrete inputs. -/
theorem c1_witness :
    (app1Run none none true "x" (Except.error "e")).request = none ∧
    Ev.errMsg "⚠️ GROQ_API_KEY not found. Please check your environment variables."
      ∈ (app2Main none none "hi" true false (Except.error "e")).events :=
  ⟨(c1_amended.1 none true "x" (Except.error "e")).2.1,
   (c1_amended.2 none "hi" true false (Except.error "e")).2 rfl rfl (by decide)⟩

/-- C2 counterexample: the non-empty input "e" occurs far more than once in
the formatted prompt of variant 1, because the template text itself contains
the letter; so "exactly once" fails. -/
theorem c2_counterexample :
    ¬(("e" : String) = "") ∧
    ¬(countOccs "e".data (formatPrompt template "e").data = 1) := by
  decide

/-- C2 (amended): for every non-empty input text and both fixed templates,
the formatted prompt contains the input text verbatim as a contiguous
substring at least once (the substitution embeds it without escaping or
transformation); inputs that also occur in the fixed template text can
appear more than once. -/
theorem c2_amended (t : String) (_h : ¬(t = "")) :
    1 ≤ countOccs t.data (formatPrompt template t).data ∧
    1 ≤ countOccs t.data (formatPrompt PROMPT_TEMPLATE t).data := by
  constructor
  · rw [format1_data, List.append_assoc]
    exact countOccs_middle _ _ _
  · rw [format2_data, List.append_assoc]
    exact countOccs_middle _ _ _

/-- C2 witness for the amended statement, at a concrete input. -/
theorem c2_witness :
    ¬(("aspirin" : String) = "") ∧
    (1 ≤ countOccs "aspirin".data (formatPrompt template "aspirin").data ∧
     1 ≤ countOccs "aspirin".data (formatPrompt PROMPT_TEMPLATE "aspirin").data) :=
  ⟨by decide, c2_amended "aspirin" (by decide)⟩

/-- C3: submitting empty or whitespace-only input through Analyze issues no
request and always yields the please-enter-text warning, in both variants
(variant 1 requires the page to be up: credential present, constructor ok). -/
theorem c3_blank_input (key ctorErr : Option String) (t : String)
    (inv : Except String PyResponse) (hblank : t.data.all isPySpace = true) :
    (truthy key = true →
      (app1Run key none true t inv).request = none ∧
      Ev.warnMsg "Please enter some text to analyze."
        ∈ (app1Run key none true t inv).events) ∧
    ((app2Main key ctorErr t true false inv).request = none ∧
      Ev.warnMsg "⚠️ Please enter some text to analyze."
        ∈ (app2Main key ctorErr t true false inv).events) := by
  have hs : (pyStrip t.data).isEmpty = true := by
    rw [pyStrip_of_all_space t.data hblank]
    rfl
  constructor
  · intro hk
    rw [app1Run_blank key t inv hk hs]
    exact ⟨rfl, by simp⟩
  · rw [app2Main_blank key ctorErr t inv hs]
    exact ⟨rfl, by simp [app2Head]⟩

/-- C3 witness at a concrete whitespace-only input. -/
theorem c3_witness :
    (" \t\n" : String).data.all isPySpace = true ∧
    ((app1Run (some "k") none true " \t\n" (Except.error "boom")).request = none ∧
     (app2Main (some "k") none " \t\n" true false (Except.error "boom")).request = none) :=
  ⟨by decide,
   ((c3_blank_input (some "k") none " \t\n" (Except.error "boom") (by decide)).1 (by decide)).1,
   ((c3_blank_input (some "k") none " \t\n" (Except.error "boom") (by decide)).2).1⟩

/-- C4: for any completion returned by the model client, the rendered
markdown and the download payload are both exactly the completion string,
and the offered files are medical_entities.txt (variant 1) and
extracted_entities.md (variant 2). -/
theorem c4_roundtrip (key : Option String) (t : String) (r : PyResponse)
    (hk : truthy key = true) (ht : (pyStrip t.data).isEmpty = false) :
    (Ev.markdownMsg (extractResult r)
        ∈ (app1Run key none true t (Except.ok r)).events ∧
     Ev.downloadButton "Download Results" (extractResult r) "medical_entities.txt" "text/plain"
        ∈ (app1Run key none true t (Except.ok r)).events) ∧
    (Ev.markdownMsg (extractResult r)
        ∈ (app2Main key none t true false (Except.ok r)).events ∧
     Ev.downloadButton "📥 Download Results" (extractResult r) "extracted_entities.md" "text/markdown"
        ∈ (app2Main key none t true false (Except.ok r)).events) := by
  constructor
  · rw [app1Run_success key t r hk ht]
    exact ⟨by simp, by simp⟩
  · rw [app2Main_analyze key none t (Except.ok r) ht, processText_success key t r hk]
    exact ⟨by simp [app2Head], by simp [app2Head]⟩

/-- C4 witness with the mocked fixed completion. -/
theorem c4_witness :
    Ev.markdownMsg "| A | B | C |" ∈
      (app1Run (some "k") none true "hi"
        (Except.ok (PyResponse.withContent "| A | B | C |" "s"))).events ∧
    Ev.downloadButton "📥 Download Results" "| A | B | C |" "extracted_entities.md" "text/markdown" ∈
      (app2Main (some "k") none "hi" true false
        (Except.ok (PyResponse.withContent "| A | B | C |" "s"))).events :=
  ⟨(c4_roundtrip (some "k") "hi" (PyResponse.withContent "| A | B | C |" "s")
      (by decide) (by decide)).1.1,
   (c4_roundtrip (some "k") "hi" (PyResponse.withContent "| A | B | C |" "s")
      (by decide) (by decide)).2.2⟩

/-- C5: every request either variant issues carries decoding temperature 0,
maximum output tokens 500 (variant 1) / 1000 (variant 2), request timeout 10
(variant 1) / 15 (variant 2) seconds, and message content equal to the
formatted prompt. -/
theorem c5_request_config (key ctorErr : Option String) (a c : Bool)
    (t : String) (inv : Except String PyResponse) (req : GroqRequest) :
    ((app1Run key ctorErr a t inv).request = some req →
      req.config.temperature = 0 ∧ req.config.maxTokens = 500 ∧
      req.config.timeout = 10 ∧ req.config.model = "mixtral-8x7b-32768" ∧
      req.messages = [formatPrompt template t]) ∧
    ((app2Main key ctorErr t a c inv).request = some req →
      req.config.temperature = 0 ∧ req.config.maxTokens = 1000 ∧
      req.config.timeout = 15 ∧ req.config.model = "mixtral-8x7b-32768" ∧
      req.messages = [formatPrompt PROMPT_TEMPLATE t]) := by
  constructor
  · intro h
    rw [app1Run_request_eq key ctorErr a t inv req h]
    exact ⟨rfl, rfl, rfl, rfl, rfl⟩
  · intro h
    rw [app2Main_request_eq key ctorErr t a c inv req h]
    exact ⟨rfl, rfl, rfl, rfl, rfl⟩

/-- C5 witness: the request issued by a concrete successful variant-1 run. -/
theorem c5_witness :
    (app1Run (some "k") none true "hi"
        (Except.ok (PyResponse.withContent "| A | B | C |" "s"))).request =
      some (GroqRequest.mk (app1Config (some "k")) [formatPrompt template "hi"]) ∧
    ((GroqRequest.mk (app1Config (some "k")) [formatPrompt template "hi"]).config.temperature = 0 ∧
     (GroqRequest.mk (app1Config (some "k")) [formatPrompt template "hi"]).config.maxTokens = 500 ∧
     (GroqRequest.mk (app1Config (some "k")) [formatPrompt template "hi"]).config.timeout = 10 ∧
     (GroqRequest.mk (app1Config (some "k")) [formatPrompt template "hi"]).config.model = "mixtral-8x7b-32768" ∧
     (GroqRequest.mk (app1Config (some "k")) [formatPrompt template "hi"]).messages = [formatPrompt template "hi"]) :=
  ⟨by rw [app1Run_success (some "k") "hi" (PyResponse.withContent "| A | B | C |" "s") rfl (by decide)],
   (c5_request_config (some "k") none true false "hi"
      (Except.ok (PyResponse.withContent "| A | B | C |" "s"))
      (GroqRequest.mk (app1Config (some "k")) [formatPrompt template "hi"])).1
     (by rw [app1Run_success (some "k") "hi" (PyResponse.withContent "| A | B | C |" "s") rfl (by decide)])⟩

/-- C6: any failure of the model call is caught in both variants: the raw
error text is shown with a generic retry/configuration suggestion, the run
is not halted and no stop occurs, so further input is accepted. -/
theorem c6_failure_handled (key : Option String) (t e : String)
    (hk : truthy key = true) (ht : (pyStrip t.data).isEmpty = false) :
    (Ev.errMsg ("Error processing text: " ++ e)
        ∈ (app1Run key none true t (Except.error e)).events ∧
     Ev.infoMsg "Please try again or check your API configuration."
        ∈ (app1Run key none true t (Except.error e)).events ∧
     (app1Run key none true t (Except.error e)).halted = false ∧
     Ev.stopPage ∉ (app1Run key none true t (Except.error e)).events) ∧
    (Ev.errMsg ("❌ Error during processing: " ++ e)
        ∈ (app2Main key none t true false (Except.error e)).events ∧
     Ev.infoMsg "Please try again or check your input text."
        ∈ (app2Main key none t true false (Except.error e)).events ∧
     Ev.stopPage ∉ (app2Main key none t true false (Except.error e)).events ∧
     (app2Main key none t true false (Except.error e)).didRerun = false) := by
  constructor
  · rw [app1Run_invokeErr key t e hk ht]
    exact ⟨by simp, by simp, rfl, by simp⟩
  · rw [app2Main_analyze key none t (Except.error e) ht, processText_invokeErr key t e hk]
    exact ⟨by simp [app2Head], by simp [app2Head], by simp [app2Head], rfl⟩

/-- C6 witness: a concrete timeout-style failure. -/
theorem c6_witness :
    Ev.errMsg ("Error processing text: " ++ "Request timed out")
      ∈ (app1Run (some "k") none true "hi" (Except.error "Request timed out")).events ∧
    Ev.stopPage ∉ (app2Main (some "k") none "hi" true false (Except.error "Request timed out")).events :=
  ⟨(c6_failure_handled (some "k") "hi" "Request timed out" (by decide) (by decide)).1.1,
   (c6_failure_handled (some "k") "hi" "Request timed out" (by decide) (by decide)).2.2.2.1⟩

/-- C7: in variant 2, pressing Clear resets the session text to the empty
string, issues no request and reruns the page; a subsequent run on the
cleared (empty) text box cannot trigger a request through Analyze and shows
the warning instead. -/
theorem c7_clear_resets (key initErr : Option String) (t : String) (a : Bool)
    (inv : Except String PyResponse) :
    ((app2Main key initErr t a true inv).sessionInput = some "" ∧
     (app2Main key initErr t a true inv).request = none ∧
     (app2Main key initErr t a true inv).didRerun = true) ∧
    (∀ (key2 initErr2 : Option String) (inv2 : Except String PyResponse),
      (app2Main key2 initErr2 "" true false inv2).request = none ∧
      Ev.warnMsg "⚠️ Please enter some text to analyze."
        ∈ (app2Main key2 initErr2 "" true false inv2).events) := by
  constructor
  · rw [app2Main_clear key initErr t a inv]
    exact ⟨rfl, rfl, rfl⟩
  · intro key2 initErr2 inv2
    rw [app2Main_blank key2 initErr2 "" inv2 rfl]
    exact ⟨rfl, by simp [app2Head]⟩

/-- C8: a failing client constructor is reported and disables the rest of
that attempt only: variant 1 shows the message and stops the run without a
request; variant 2 shows the message, makes no request and does not halt;
and a later attempt with a working constructor issues its request. -/
theorem c8_init_failure (key : Option String) (e : String) (a : Bool)
    (t : String) (inv : Except String PyResponse) :
    ((app1Run key (some e) a t inv).request = none ∧
     (truthy key = true →
       Ev.errMsg ("Error initializing ChatGroq: " ++ e)
          ∈ (app1Run key (some e) a t inv).events ∧
       (app1Run key (some e) a t inv).halted = true)) ∧
    (truthy key = true → (pyStrip t.data).isEmpty = false →
      (app2Main key (some e) t true false inv).request = none ∧
      Ev.errMsg ("Failed to initialize LLM: " ++ e)
         ∈ (app2Main key (some e) t true false inv).events ∧
      Ev.stopPage ∉ (app2Main key (some e) t true false inv).events) ∧
    (truthy key = true → (pyStrip t.data).isEmpty = false → ∀ r : PyResponse,
      (app1Run key none true t (Except.ok r)).request.isSome = true ∧
      (app2Main key none t true false (Except.ok r)).request.isSome = true) := by
  refine ⟨⟨?_, ?_⟩, ?_, ?_⟩
  · cases hk : truthy key with
    | false => rw [app1Run_noKey _ _ _ _ _ hk]
    | true => rw [app1Run_ctorErr _ _ _ _ _ hk]
  · intro hk
    rw [app1Run_ctorErr _ _ _ _ _ hk]
    exact ⟨by simp, rfl⟩
  · intro hk ht
    rw [app2Main_analyze _ _ _ _ ht, processText_initErr _ _ _ _ hk]
    exact ⟨rfl, by simp [app2Head], by simp [app2Head]⟩
  · intro hk ht r
    rw [app1Run_success _ _ _ hk ht, app2Main_analyze _ _ _ _ ht,
      processText_success _ _ _ hk]
    exact ⟨rfl, rfl⟩

/-- C8 witness at a concrete constructor failure. -/
theorem c8_witness :
    Ev.errMsg ("Error initializing ChatGroq: " ++ "bad key")
      ∈ (app1Run (some "k") (some "bad key") true "hi" (Except.error "x")).events ∧
    (app2Main (some "k") (some "bad key") "hi" true false (Except.error "x")).request = none ∧
    (app1Run (some "k") none true "hi"
      (Except.ok (PyResponse.withContent "| A | B | C |" "s"))).request.isSome = true :=
  ⟨((c8_init_failure (some "k") "bad key" true "hi" (Except.error "x")).1.2 (by decide)).1,
   ((c8_init_failure (some "k") "bad key" true "hi" (Except.error "x")).2.1 (by decide) (by decide)).1,
   ((c8_init_failure (some "k") "bad key" true "hi" (Except.error "x")).2.2 (by decide) (by decide)
      (PyResponse.withContent "| A | B | C |" "s")).1⟩

/-- C9: per script execution the credential is read from the environment
exactly once, at startup, in both variants, and every request issued carries
exactly the fixed startup configuration record (the run functions are pure,
so nothing mutates it and no mutable resource is shared). -/
theorem c9_single_read_fixed_config (key ctorErr : Option String) (a c : Bool)
    (t : String) (inv : Except String PyResponse) (req : GroqRequest) :
    ((app1Run key ctorErr a t inv).events.count (Ev.getEnv "GROQ_API_KEY") = 1) ∧
    ((app2Main key ctorErr t a c inv).events.count (Ev.getEnv "GROQ_API_KEY") = 1) ∧
    ((app1Run key ctorErr a t inv).request = some req →
      req.config = app1Config key) ∧
    ((app2Main key ctorErr t a c inv).request = some req →
      req.config = app2Config key) := by
  refine ⟨?_, ?_, ?_, ?_⟩
  · cases hk : truthy key with
    | false => rw [app1Run_noKey _ _ _ _ _ hk]; decide
    | true =>
      cases ctorErr with
      | some e =>
        rw [app1Run_ctorErr _ _ _ _ _ hk]
        simp [List.count_cons, List.count_nil]
      | none =>
        cases a with
        | false => rw [app1Run_noClick _ _ _ hk]; decide
        | true =>
          cases ht : (pyStrip t.data).isEmpty with
          | true => rw [app1Run_blank _ _ _ hk ht]; decide
          | false =>
            cases inv with
            | ok r =>
              rw [app1Run_success _ _ _ hk ht]
              simp [List.count_cons, List.count_nil]
            | error e =>
              rw [app1Run_invokeErr _ _ _ hk ht]
              simp [List.count_cons, List.count_nil]
  · cases c with
    | true =>
      rw [app2Main_clear]
      simp [app2Head, List.count_append, List.count_cons, List.count_nil]
    | false =>
      cases a with
      | false =>
        rw [app2Main_idle]
        simp [app2Head, List.count_append, List.count_cons, List.count_nil]
      | true =>
        cases ht : (pyStrip t.data).isEmpty with
        | true =>
          rw [app2Main_blank _ _ _ _ ht]
          simp [app2Head, List.count_append, List.count_cons, List.count_nil]
        | false =>
          rw [app2Main_analyze _ _ _ _ ht]
          cases hk : truthy key with
          | false =>
            rw [processText_noKey _ _ _ _ hk]
            simp [app2Head, List.count_append, List.count_cons, List.count_nil]
          | true =>
            cases ctorErr with
            | some e =>
              rw [processText_initErr _ _ _ _ hk]
              simp [app2Head, List.count_append, List.count_cons, List.count_nil]
            | none =>
              cases inv with
              | ok r =>
                rw [processText_success _ _ _ hk]
                simp [app2Head, List.count_append, List.count_cons, List.count_nil]
              | error e =>
                rw [processText_invokeErr _ _ _ hk]
                simp [app2Head, List.count_append, List.count_cons, List.count_nil]
  · intro h
    rw [app1Run_request_eq key ctorErr a t inv req h]
  · intro h
    rw [app2Main_request_eq key ctorErr t a c inv req h]

/-- C9 witness at a concrete run and request. -/
theorem c9_witness :
    (app1Run (some "k") none true "hi"
        (Except.ok (PyResponse.withContent "| A | B | C |" "s"))).events.count
      (Ev.getEnv "GROQ_API_KEY") = 1 ∧
    (GroqRequest.mk (app1Config (some "k")) [formatPrompt template "hi"]).config =
      app1Config (some "k") :=
  ⟨(c9_single_read_fixed_config (some "k") none true false "hi"
      (Except.ok (PyResponse.withContent "| A | B | C |" "s"))
      (GroqRequest.mk (app1Config (some "k")) [formatPrompt template "hi"])).1,
   (c9_single_read_fixed_config (some "k") none true false "hi"
      (Except.ok (PyResponse.withContent "| A | B | C |" "s"))
      (GroqRequest.mk (app1Config (some "k")) [formatPrompt template "hi"])).2.2.1
     (by rw [app1Run_success (some "k") "hi" (PyResponse.withContent "| A | B | C |" "s") rfl (by decide)])⟩

/-- C10: the string displayed and the string offered for download are the
same value, computed as the content attribute when the response has one and
as the string conversion otherwise; the extraction is a total function. -/
theorem c10_extract_consistent (key : Option String) (t : String)
    (r : PyResponse) (hk : truthy key = true)
    (ht : (pyStrip t.data).isEmpty = false) :
    (∀ cs ss, extractResult (PyResponse.withContent cs ss) = cs) ∧
    (∀ ss, extractResult (PyResponse.withoutContent ss) = ss) ∧
    (Ev.markdownMsg (extractResult r)
        ∈ (app1Run key none true t (Except.ok r)).events ∧
     Ev.downloadButton "Download Results" (extractResult r) "medical_entities.txt" "text/plain"
        ∈ (app1Run key none true t (Except.ok r)).events) ∧
    (Ev.markdownMsg (extractResult r)
        ∈ (app2Main key none t true false (Except.ok r)).events ∧
     Ev.downloadButton "📥 Download Results" (extractResult r) "extracted_entities.md" "text/markdown"
        ∈ (app2Main key none t true false (Except.ok r)).events) := by
  refine ⟨fun cs ss => rfl, fun ss => rfl, ?_, ?_⟩
  · rw [app1Run_success key t r hk ht]
    exact ⟨by simp, by simp⟩
  · rw [app2Main_analyze key none t (Except.ok r) ht, processText_success key t r hk]
    exact ⟨by simp [app2Head], by simp [app2Head]⟩

/-- C10 witness at a concrete response without a content attribute. -/
theorem c10_witness :
    extractResult (PyResponse.withoutContent "raw") = "raw" ∧
    Ev.markdownMsg (extractResult (PyResponse.withoutContent "raw"))
      ∈ (app1Run (some "k") none true "hi"
          (Except.ok (PyResponse.withoutContent "raw"))).events :=
  ⟨(c10_extract_consistent (some "k") "hi" (PyResponse.withoutContent "raw")
      (by decide) (by decide)).2.1 "raw",
   (c10_extract_consistent (some "k") "hi" (PyResponse.withoutContent "raw")
      (by decide) (by decide)).2.2.1.1⟩
